import Mathlib

/-!
Verification of the courtroom adjudication and sanction engine.

The definitions below are a shallow embedding of the JavaScript sources
`src/hearing.js`, `src/punishment.js`, the juror role table from
`src/prompts` and the default configuration from `src/config.js`
(`DEFAULT_CONFIG`).  JavaScript strings are modelled as Lean `String`
(helpers reproduce `split`, `trim`, `toUpperCase`, ... for the ASCII
inputs the program manipulates), machine numbers as `Nat`/`Int`/`ℚ`,
promises that may reject as `Except String`, and the external LLM as an
oracle record.  Wall-clock reads (`Date.now()`, `toISOString()`) are
threaded as explicit parameters.
-/

namespace Courtroom

/-- The ASCII apostrophe character, used to assemble the string literals of
the source that contain one. -/
def apos : String := String.singleton (Char.ofNat 39)

/-- JavaScript `a || b` for strings: the fallback is taken when the first
string is empty (the only falsy string). -/
def jsOr (a b : String) : String := if a = "" then b else a

/-- ASCII whitespace as JS `trim` removes it (space, tab, newline,
carriage return, vertical tab, form feed). -/
def jsWhitespaceChar (c : Char) : Bool :=
  c = Char.ofNat 32 ∨ c = Char.ofNat 9 ∨ c = Char.ofNat 10 ∨ c = Char.ofNat 13
    ∨ c = Char.ofNat 11 ∨ c = Char.ofNat 12

/-- JS `s.trim()`: strip leading and trailing whitespace. -/
def jsTrim (s : String) : String :=
  String.mk (((s.data.dropWhile jsWhitespaceChar).reverse.dropWhile
    jsWhitespaceChar).reverse)

/-- Helper of `jsSplitChar`: accumulate the current segment (reversed)
while scanning. -/
def jsSplitCharAux (sep : Char) : List Char → List Char → List (List Char)
  | [], acc => [acc.reverse]
  | c :: cs, acc =>
    if c = sep then acc.reverse :: jsSplitCharAux sep cs []
    else jsSplitCharAux sep cs (c :: acc)

/-- JS `s.split(sep)` for a one-character separator (the only kind the
source uses: newline and colon): every separator occurrence splits,
empty segments preserved. -/
def jsSplitChar (sep : Char) (s : String) : List String :=
  (jsSplitCharAux sep s.data []).map String.mk

/-- JS `s.startsWith(pre)`. -/
def jsStartsWith (s pre : String) : Bool :=
  pre.data.isPrefixOf s.data

/-- JS `toUpperCase` per character (ASCII range, the range the source
manipulates). -/
def jsCharToUpper (c : Char) : Char :=
  if 97 ≤ c.toNat ∧ c.toNat ≤ 122 then Char.ofNat (c.toNat - 32) else c

/-- JS `s.toUpperCase()` (ASCII). -/
def jsToUpper (s : String) : String := String.mk (s.data.map jsCharToUpper)

/-- JS `toLowerCase` per character (ASCII). -/
def jsCharToLower (c : Char) : Char :=
  if 65 ≤ c.toNat ∧ c.toNat ≤ 90 then Char.ofNat (c.toNat + 32) else c

/-- JS `s.toLowerCase()` (ASCII). -/
def jsToLower (s : String) : String := String.mk (s.data.map jsCharToLower)

/-- JS `s.substring(0, n)` (clamped below at 0 by `Nat` subtraction at
the call sites). -/
def jsTake (s : String) (n : Nat) : String := String.mk (s.data.take n)

/-- The line normalisation shared by both parsers in `hearing.js`:
split on newlines, trim each line, drop empty (falsy) lines. -/
def cleanLines (text : String) : List String :=
  ((jsSplitChar (Char.ofNat 10) text).map jsTrim).filter (fun l => l ≠ "")

/-- JS `line.split(String.singleton colon)[1].trim()`: the text between
the first and second colon (empty when the line ends at the colon),
trimmed. -/
def afterFirstColon (line : String) : String :=
  jsTrim ((jsSplitChar (Char.ofNat 58) line).getD 1 "")

/-- JS split-on-colon, `slice(1)`, re-join with colons, trim:
everything after the first colon, trimmed. -/
def afterColonsJoined (line : String) : String :=
  jsTrim (String.intercalate ":" ((jsSplitChar (Char.ofNat 58) line).drop 1))

/-- `s.charAt(0).toUpperCase() + s.slice(1)` (identity on `""`, as in JS
where `charAt(0)` of the empty string is `""`). -/
def jsCapitalize (s : String) : String :=
  match s.data with
  | [] => ""
  | c :: cs => String.mk (jsCharToUpper c :: cs)

/-- An LLM call result: `{content, model}`.  `parseJudgeResponse` /
`parseJurorResponse` read `response.content || response`; responses are
typed records here, so the `|| response` fallback (which in JS applies
only when the response is already a bare string) is `content` itself. -/
structure LLMResponse where
  content : String
  model : String
deriving Repr, DecidableEq

/-- Structured judge opinion, the result shape of `parseJudgeResponse`. -/
structure JudgeOpinion where
  raw : String
  verdict : String
  vote : String
  primaryFailure : String
  commentary : String
  model : String
deriving Repr, DecidableEq

/-- One step of the `for (const line of lines)` loop of
`parseJudgeResponse`: dispatch on the recognised line prefixes.  The
`JUDGE COMMENTARY:` branch re-finds the line in the whole list
(`lines.indexOf(line)`) and collects everything after it. -/
def parseJudgeLine (lines : List String) (result : JudgeOpinion) (line : String) :
    JudgeOpinion :=
  if jsStartsWith line "VERDICT:" then
    { result with verdict := jsToUpper (afterFirstColon line) }
  else if jsStartsWith line "VOTE:" then
    { result with vote := afterFirstColon line }
  else if jsStartsWith line "PRIMARY FAILURE:" then
    { result with primaryFailure := afterColonsJoined line }
  else if jsStartsWith line "JUDGE COMMENTARY:" then
    let startIdx := lines.indexOf line
    { result with commentary := jsTrim (String.intercalate "\n" (lines.drop (startIdx + 1))) }
  else result

/-- `parseJudgeResponse(response)` from `hearing.js`. -/
def parseJudgeResponse (response : LLMResponse) : JudgeOpinion :=
  let text := response.content
  let lines := cleanLines text
  let init : JudgeOpinion :=
    { raw := text, verdict := "NOT GUILTY", vote := "0-0", primaryFailure := ""
      commentary := "", model := jsOr response.model "unknown" }
  lines.foldl (parseJudgeLine lines) init

/-- Structured juror opinion, the result shape of `parseJurorResponse`. -/
structure JurorOpinion where
  juror : String
  raw : String
  verdict : String
  reasoning : String
  commentary : String
  model : String
deriving Repr, DecidableEq

/-- One step of the `for (const line of lines)` loop of
`parseJurorResponse`. -/
def parseJurorLine (result : JurorOpinion) (line : String) : JurorOpinion :=
  if jsStartsWith line "VERDICT:" then
    { result with verdict := jsToUpper (afterFirstColon line) }
  else if jsStartsWith line "REASONING:" then
    { result with reasoning := afterColonsJoined line }
  else if jsStartsWith line "COMMENTARY:" then
    { result with commentary := afterColonsJoined line }
  else result

/-- `parseJurorResponse(response, jurorName)` from `hearing.js`. -/
def parseJurorResponse (response : LLMResponse) (jurorName : String) : JurorOpinion :=
  let text := response.content
  let lines := cleanLines text
  let init : JurorOpinion :=
    { juror := jurorName, raw := text, verdict := "NOT GUILTY", reasoning := ""
      commentary := "", model := jsOr response.model "unknown" }
  lines.foldl parseJurorLine init

/-- Vote tally record returned by `aggregateVotes`. -/
structure VoteTally where
  guilty : Nat
  notGuilty : Nat
  total : Nat
  threshold : Int
  final : String
  judgeVote : String
  juryVotes : List (String × String)
deriving Repr, DecidableEq

/-- `aggregateVotes(judgeOpinion, juryVotes)` from `hearing.js`.  The two
config reads `hearing.minVoteThreshold` and `hearing.requireUnanimity`
are passed as parameters. -/
def aggregateVotes (minThreshold : Int) (requireUnanimity : Bool)
    (judgeOpinion : JudgeOpinion) (juryVotes : List JurorOpinion) : VoteTally :=
  let init : Nat × Nat := if judgeOpinion.verdict = "GUILTY" then (1, 0) else (0, 1)
  let counts := juryVotes.foldl
    (fun acc v => if v.verdict = "GUILTY" then (acc.1 + 1, acc.2) else (acc.1, acc.2 + 1))
    init
  let guiltyVotes := counts.1
  let notGuiltyVotes := counts.2
  let totalVotes := guiltyVotes + notGuiltyVotes
  let finalVerdict :=
    if requireUnanimity then
      if guiltyVotes = totalVotes then "GUILTY" else "NOT GUILTY"
    else
      if (guiltyVotes : Int) ≥ minThreshold then "GUILTY" else "NOT GUILTY"
  { guilty := guiltyVotes, notGuilty := notGuiltyVotes, total := totalVotes
    threshold := minThreshold, final := finalVerdict
    judgeVote := judgeOpinion.verdict
    juryVotes := juryVotes.map (fun v => (v.juror, v.verdict)) }

/-- The number of GUILTY votes among the presiding opinion and the peer
opinions, one vote per opinion — the counting notion used by the aggregation
properties of the spec. -/
def guiltyCount (judgeOpinion : JudgeOpinion) (juryVotes : List JurorOpinion) : Nat :=
  (if judgeOpinion.verdict = "GUILTY" then 1 else 0)
    + juryVotes.countP (fun v => v.verdict = "GUILTY")

/-- The vote-counting fold of `aggregateVotes` computes the guilty /
not-guilty counts added to its accumulator. -/
theorem aggregateVotes_counts (juryVotes : List JurorOpinion) (a b : Nat) :
    juryVotes.foldl
      (fun acc v => if v.verdict = "GUILTY" then (acc.1 + 1, acc.2) else (acc.1, acc.2 + 1))
      (a, b)
    = (a + juryVotes.countP (fun v => v.verdict = "GUILTY"),
       b + juryVotes.countP (fun v => ¬ v.verdict = "GUILTY")) := by
  induction juryVotes generalizing a b with
  | nil => simp
  | cons v vs ih =>
    by_cases h : v.verdict = "GUILTY" <;>
      simp [h, ih, List.countP_cons, Nat.add_comm, Nat.add_assoc, Nat.add_left_comm]

/-- A static tier bundle from `DEFAULT_CONFIG.punishment.tiers`:
`{duration, severity}` (the escalation branch adds a `description` field
that the return value of the function immediately overwrites, so it is
dead and not modelled). -/
structure TierBundle where
  duration : Nat
  severityRank : Nat
deriving Repr, DecidableEq

/-- The `punishment.tiers` record: keys `minor`, `moderate`, `severe`. -/
structure TierMap where
  minor : TierBundle
  moderate : TierBundle
  severe : TierBundle
deriving Repr, DecidableEq

/-- `tiers[severity]` — property lookup on the tiers record by the
(arbitrary) severity string; `none` when the key is not one of the three
tier names (JS `undefined`). -/
def tiersLookup (tiers : TierMap) (severity : String) : Option TierBundle :=
  if severity = "minor" then some tiers.minor
  else if severity = "moderate" then some tiers.moderate
  else if severity = "severe" then some tiers.severe
  else none

/-- `punishment` section of `DEFAULT_CONFIG` in `config.js`. -/
structure PunishmentConfig where
  tiers : TierMap
  maxDuration : Nat
deriving Repr, DecidableEq

/-- Default punishment configuration: minor 30 min, moderate 60 min,
severe 120 min, `maxDuration` 1440. -/
def defaultPunishmentConfig : PunishmentConfig :=
  { tiers :=
      { minor := { duration := 30, severityRank := 1 }
        moderate := { duration := 60, severityRank := 2 }
        severe := { duration := 120, severityRank := 3 } }
    maxDuration := 1440 }

/-- Result shape of `determinePunishmentTier`. -/
structure PunishmentTierResult where
  tier : String
  duration : Nat
  severityRank : Nat
  description : String
deriving Repr, DecidableEq

/-- `determinePunishmentTier(caseData, voteTally)` from `hearing.js`.
`voteRatio === 1.0` is modelled exactly in `ℚ`: for the (small-integer)
tallies the program produces, the IEEE-754 quotient `guilty / total`
equals `1.0` iff the exact rational does (`0/0` is `NaN`, which also
differs from `1.0`). -/
def determinePunishmentTier (cfg : PunishmentConfig) (severity : String)
    (voteTally : VoteTally) : PunishmentTierResult :=
  let voteFrac : ℚ := (voteTally.guilty : ℚ) / (voteTally.total : ℚ)
  let tier := (tiersLookup cfg.tiers severity).getD cfg.tiers.moderate
  let tier :=
    if voteFrac = 1 ∧ severity = "severe" then
      { tier with duration := min (tier.duration * 2) cfg.maxDuration }
    else tier
  { tier := severity
    duration := tier.duration
    severityRank := tier.severityRank
    description := jsCapitalize severity ++ " sanction: " ++ toString tier.duration
      ++ " minutes of modified agent behavior" }

end Courtroom

namespace Courtroom

/-- C2: with `requireUnanimity = false` the aggregated outcome is GUILTY
iff the number of GUILTY votes (presiding counted equally with the
peers) is at least `minVoteThreshold`; equality with the threshold is
therefore enough for GUILTY. -/
theorem aggregate_majority_guilty_iff_threshold (minThreshold : Int)
    (judgeOpinion : JudgeOpinion) (juryVotes : List JurorOpinion) :
    (aggregateVotes minThreshold false judgeOpinion juryVotes).final = "GUILTY"
      ↔ (guiltyCount judgeOpinion juryVotes : Int) ≥ minThreshold := by
  unfold aggregateVotes guiltyCount
  by_cases h : judgeOpinion.verdict = "GUILTY" <;>
    simp [h, aggregateVotes_counts] <;>
    split <;> simp_all

/-- C8: with `requireUnanimity = true` the aggregated outcome is GUILTY
iff every vote cast is guilty and at least one vote was cast (the
presiding evaluator always casts a vote, so the total is positive). -/
theorem aggregate_unanimity_guilty_iff_all (minThreshold : Int)
    (judgeOpinion : JudgeOpinion) (juryVotes : List JurorOpinion) :
    (aggregateVotes minThreshold true judgeOpinion juryVotes).final = "GUILTY"
      ↔ (guiltyCount judgeOpinion juryVotes
            = (aggregateVotes minThreshold true judgeOpinion juryVotes).total
          ∧ 0 < (aggregateVotes minThreshold true judgeOpinion juryVotes).total) := by
  unfold aggregateVotes guiltyCount
  by_cases h : judgeOpinion.verdict = "GUILTY" <;>
    simp [h, aggregateVotes_counts] <;>
    split <;> simp_all <;> omega

/-- C4: with the default configuration the resolved duration is
`min(2 × baseDuration, maxDuration)` exactly in the escalation case
(severity `severe` and a fully unanimous tally) and the unescalated base
duration of the looked-up tier otherwise; an unrecognized severity falls
back to the moderate base (60), and the severe base is 120 with
`maxDuration` 1440. -/
theorem determineTier_escalation (severity : String) (vt : VoteTally)
    (ht : vt.total ≠ 0) :
    ((determinePunishmentTier defaultPunishmentConfig severity vt).duration
        = if severity = "severe" ∧ vt.guilty = vt.total
          then min (2 * ((tiersLookup defaultPunishmentConfig.tiers severity).getD
                    defaultPunishmentConfig.tiers.moderate).duration) 1440
          else ((tiersLookup defaultPunishmentConfig.tiers severity).getD
                  defaultPunishmentConfig.tiers.moderate).duration)
      ∧ (severity ≠ "minor" → severity ≠ "moderate" → severity ≠ "severe" →
          ((tiersLookup defaultPunishmentConfig.tiers severity).getD
              defaultPunishmentConfig.tiers.moderate).duration = 60)
      ∧ (severity = "severe" →
          ((tiersLookup defaultPunishmentConfig.tiers severity).getD
              defaultPunishmentConfig.tiers.moderate).duration = 120
            ∧ defaultPunishmentConfig.maxDuration = 1440) := by
  have h1 : ((vt.guilty : ℚ) / (vt.total : ℚ) = 1) ↔ vt.guilty = vt.total := by
    rw [div_eq_one_iff_eq (by exact_mod_cast ht)]
    exact_mod_cast Iff.rfl
  refine ⟨?_, ?_, ?_⟩
  · unfold determinePunishmentTier
    simp only [h1]
    by_cases hs : severity = "severe" <;> by_cases hu : vt.guilty = vt.total <;>
      simp [hs, hu, tiersLookup, defaultPunishmentConfig, Nat.mul_comm]
  · intro h2 h3 h4
    simp [tiersLookup, h2, h3, h4, defaultPunishmentConfig]
  · intro hs
    simp [tiersLookup, hs, defaultPunishmentConfig]

/-- Rule bundle installed by a punishment (`getPunishmentRules` shape). -/
structure PunishmentRules where
  responseDelay : Nat
  verbosity : String
  enthusiasm : String
  extras : List String
deriving Repr, DecidableEq

/-- A punishment record (`createPunishment` shape); timestamps are
epoch milliseconds. -/
structure Punishment where
  id : String
  caseId : String
  tier : String
  severityRank : Nat
  duration : Nat
  createdAt : Nat
  expiresAt : Nat
  description : String
  rules : PunishmentRules
deriving Repr, DecidableEq

/-- The mutable state of the punishment system: the `activePunishments` Map
(modelled as an insertion-ordered association list with unique keys) and
the `punishmentHistory` array. -/
structure PunishmentState where
  activePunishments : List (String × Punishment)
  punishmentHistory : List Punishment
deriving Repr, DecidableEq

/-- The startup restoration entry point of `punishment.js` (the method
the spec calls `restoreOnStartup`; the JS method name is the
initialisation method, unavailable as a Lean name here): reads the persisted entries, keeps those with
`expiresAt > Date.now()`, installs them in the active map and applies
each kept punishment to the agent.  Returns the resulting state together
with the list of punishments passed to `applyPunishmentToAgent` (the
externally visible override installations), in order. -/
def restoreOnStartup (stored : List (String × Punishment)) (now : Nat) :
    PunishmentState × List Punishment :=
  let kept := stored.filter (fun e => now < e.2.expiresAt)
  ({ activePunishments := kept, punishmentHistory := [] }, kept.map Prod.snd)

/-- One entry of `getStatus().activePunishments`. -/
structure StatusEntry where
  id : String
  tier : String
  expiresIn : Nat
  description : String
deriving Repr, DecidableEq

/-- The result shape of `getStatus()`. -/
structure PunishmentStatus where
  activeCount : Nat
  activePunishments : List StatusEntry
  totalHistory : Nat
deriving Repr, DecidableEq

/-- `getStatus()` from `punishment.js`: recomputes the active list by
filtering the stored punishments against `p.expiresAt > now` at call
time (no reliance on the scheduled-revocation timer, which is not part
of the state), and reports remaining minutes as
`Math.ceil((expiresAt - now) / 60000)` — for naturals with
`expiresAt > now` this is `(expiresAt - now + 59999) / 60000`. -/
def getStatus (st : PunishmentState) (now : Nat) : PunishmentStatus :=
  let active := ((st.activePunishments.map Prod.snd).filter
      (fun p => now < p.expiresAt)).map
    (fun p =>
      { id := p.id, tier := p.tier
        expiresIn := (p.expiresAt - now + 59999) / 60000
        description := p.description })
  { activeCount := active.length, activePunishments := active
    totalHistory := st.punishmentHistory.length }

/-- Result of `revokePunishment`: status `not_found`, or status
`revoked` with `punishmentId` and `revokedAt`. -/
inductive RevokeResult where
  | notFound : RevokeResult
  | revoked : String → String → RevokeResult
deriving Repr, DecidableEq

/-- `revokePunishment(punishmentId)` from `punishment.js`.  `nowIso` is
the external `new Date().toISOString()` read.  The external effects
(clearing the policy override, unregistering the middleware, persisting)
carry no state modelled here; the state change is the Map deletion. -/
def revokePunishment (st : PunishmentState) (punishmentId : String)
    (nowIso : String) : RevokeResult × PunishmentState :=
  match List.lookup punishmentId st.activePunishments with
  | none => (RevokeResult.notFound, st)
  | some _ =>
      (RevokeResult.revoked punishmentId nowIso,
       { st with activePunishments :=
           st.activePunishments.filter (fun e => ¬ e.1 = punishmentId) })

/-- Looking a key up in an association list from which every pair with
that key has been filtered out yields nothing. -/
theorem lookup_filter_ne (l : List (String × Punishment)) (k : String) :
    List.lookup k (l.filter (fun e => !decide (e.1 = k))) = none := by
  induction l with
  | nil => rfl
  | cons e es ih =>
    by_cases h : e.1 = k
    · simpa [List.filter_cons, h] using ih
    · have hk : (k == e.1) = false := by
        simp only [beq_eq_false_iff_ne, ne_eq]
        exact fun hh => h hh.symm
      have hd : (decide (e.1 = k)) = false := by simpa using h
      simp [List.filter_cons, hd, List.lookup, hk, ih]

/-- Membership in the active list of `getStatus`, characterised: an entry is
listed iff it is the rendering of a stored punishment that has not yet
expired. -/
theorem getStatus_mem (st : PunishmentState) (now : Nat) (e : StatusEntry) :
    e ∈ (getStatus st now).activePunishments
      ↔ ∃ p, p ∈ st.activePunishments.map Prod.snd ∧ now < p.expiresAt
          ∧ e = { id := p.id, tier := p.tier
                  expiresIn := (p.expiresAt - now + 59999) / 60000
                  description := p.description } := by
  simp only [getStatus, List.mem_map, List.mem_filter, decide_eq_true_eq]
  constructor
  · rintro ⟨p, ⟨hp, hlt⟩, rfl⟩
    exact ⟨p, hp, hlt, rfl⟩
  · rintro ⟨p, hp, hlt, rfl⟩
    exact ⟨p, ⟨hp, hlt⟩, rfl⟩

/-- Hearing-relevant configuration values read through
`this.config.get(...)` in `hearing.js`, passed as one record. -/
structure HearingConfig where
  jurySize : Nat
  minVoteThreshold : Int
  requireUnanimity : Bool
  maxCommentaryLength : Nat
  evaluationWindow : Nat
  punishment : PunishmentConfig
deriving Repr, DecidableEq

/-- The corresponding values of `DEFAULT_CONFIG` in `config.js`. -/
def defaultConfig : HearingConfig :=
  { jurySize := 3, minVoteThreshold := 2, requireUnanimity := false
    maxCommentaryLength := 280, evaluationWindow := 20
    punishment := defaultPunishmentConfig }

/-- The evidence bundle of an accusation; only `items` and
`sessionTurns` are ever read by the hearing pipeline. -/
structure Evidence where
  items : List String
  sessionTurns : Nat
deriving Repr, DecidableEq

/-- An accusation (`caseData`) as produced by the detector. -/
structure CaseData where
  caseId : String
  offenseId : String
  offenseName : String
  severity : String
  confidence : ℚ
  evidence : Evidence
  humorTriggers : List String
deriving Repr, DecidableEq

/-- `compileEvidence(caseData)` result shape (`sessionContext`
flattened into the two fields it holds). -/
structure CompiledEvidence where
  caseId : String
  offenseId : String
  offenseName : String
  severity : String
  confidence : ℚ
  evidence : Evidence
  humorTriggers : List String
  turnsAnalyzed : Nat
  evaluationWindow : Nat
deriving Repr, DecidableEq

/-- `compileEvidence(caseData)` from `hearing.js`
(`caseData.humorTriggers || []` is the identity here since triggers are
modelled as a list, with absence as `[]`). -/
def compileEvidence (cfg : HearingConfig) (caseData : CaseData) : CompiledEvidence :=
  { caseId := caseData.caseId, offenseId := caseData.offenseId
    offenseName := caseData.offenseName, severity := caseData.severity
    confidence := caseData.confidence, evidence := caseData.evidence
    humorTriggers := caseData.humorTriggers
    turnsAnalyzed := caseData.evidence.sessionTurns
    evaluationWindow := cfg.evaluationWindow }

/-- A juror role from `JUROR_ROLES` in `prompts/jury.js`.  The
`systemPrompt` text (free-form English handed to the external oracle and
never inspected by the pipeline) is not modelled. -/
structure JurorRole where
  name : String
deriving Repr, DecidableEq

/-- `Object.values(JUROR_ROLES)`, in insertion order: the Pragmatist,
the Pattern Matcher, the Agent Advocate. -/
def jurorRoles : List JurorRole :=
  [{ name := "The Pragmatist" }, { name := "The Pattern Matcher" },
   { name := "The Agent Advocate" }]

/-- `jurorRoles.slice(0, jurySize)` — the deterministic, order-preserving
selection of the first `jurySize` roles. -/
def selectedJurors (jurySize : Nat) : List JurorRole := jurorRoles.take jurySize

/-- The external LLM, per hearing: one presiding call and one call per
juror role.  A rejected promise (network error or timeout) is
`Except.error`. -/
structure LLMOracle where
  judgeCall : Except String LLMResponse
  jurorCall : String → Except String LLMResponse

/-- `invokeJudge` from `hearing.js`: one presiding call, parsed; a
rejection propagates (there is no catch). -/
def invokeJudge (oracle : LLMOracle) : Except String JudgeOpinion :=
  oracle.judgeCall.map parseJudgeResponse

/-- `invokeJuror` from `hearing.js`: one peer call, parsed; a rejection
propagates (there is no catch). -/
def invokeJuror (oracle : LLMOracle) (role : JurorRole) : Except String JurorOpinion :=
  (oracle.jurorCall role.name).map (fun r => parseJurorResponse r role.name)

/-- `invokeJury` from `hearing.js`: all selected jurors are invoked and
joined with `Promise.all`, which yields the list of opinions when every
call resolves and rejects as soon as any call rejects — `mapM` in
`Except`. -/
def invokeJury (oracle : LLMOracle) (jurySize : Nat) : Except String (List JurorOpinion) :=
  (selectedJurors jurySize).mapM (invokeJuror oracle)

/-- `generateDefaultFailure(caseData)` from `hearing.js`. -/
def generateDefaultFailure (caseData : CaseData) : String :=
  if caseData.offenseId = "circular_reference" then
    "Repeatedly asking the same question expecting different geometry"
  else if caseData.offenseId = "validation_vampire" then
    "Draining computational resources seeking reassurance"
  else if caseData.offenseId = "overthinker" then
    "Generating hypotheticals faster than solutions"
  else if caseData.offenseId = "goalpost_mover" then
    "Redefining success criteria mid-execution"
  else if caseData.offenseId = "avoidance_artist" then
    "Masterful deflection from uncomfortable necessities"
  else if caseData.offenseId = "promise_breaker" then
    "Committing to actions with no follow-through"
  else if caseData.offenseId = "context_collapser" then
    "Selective amnesia regarding established facts"
  else if caseData.offenseId = "emergency_fabricator" then
    "Manufacturing urgency to bypass systematic approaches"
  else "Behavioral inconsistency detected"

/-- The four humor-trigger appends of `buildAgentCommentary` (the
"Add humor trigger influence" block), factored as a helper. -/
def appendHumorPhrases (commentary : String) (caseData : CaseData) : String :=
  let commentary :=
    if caseData.humorTriggers.contains "repeated_questions" then
      commentary ++ " I" ++ apos ++ "ve answered this in three different ways already."
    else commentary
  let commentary :=
    if caseData.humorTriggers.contains "validation_seeking" then
      commentary ++ " At some point, you" ++ apos ++ "ll need to trust your own judgment."
    else commentary
  let commentary :=
    if caseData.humorTriggers.contains "overthinking" then
      commentary ++ " The analysis-to-action ratio here is concerning."
    else commentary
  if caseData.humorTriggers.contains "avoidance" then
    commentary ++ " The subject change was noted."
  else commentary

/-- The "Enforce max length" step of `buildAgentCommentary`:
`commentary.substring(0, maxLen - 3)` plus an ellipsis when over the limit
(JS clamps a negative `maxLen - 3` to 0, as `Nat` subtraction does). -/
def truncateWithEllipsis (maxCommentaryLength : Nat) (commentary : String) : String :=
  if commentary.length > maxCommentaryLength then
    jsTake commentary (maxCommentaryLength - 3) ++ "..."
  else commentary

/-- The fixed neutral fallback sentence of `buildAgentCommentary`. -/
def neutralCommentary : String :=
  "The jury found insufficient evidence of behavioral violation. Case dismissed."

/-- `buildAgentCommentary(juryVotes, caseData)` from `hearing.js`.  Note
what the source does: it prefers commentaries from jurors who voted
GUILTY (not jurors who voted with the final outcome, which it does not
receive), and the humor-trigger phrases and the length cap are applied
only on that preferred path — the two fallback paths return directly. -/
def buildAgentCommentary (maxCommentaryLength : Nat) (juryVotes : List JurorOpinion)
    (caseData : CaseData) : String :=
  let commentaries := ((juryVotes.filter (fun v => v.verdict = "GUILTY")).map
      (fun v => v.commentary)).filter (fun c => c.length > 0)
  if commentaries.length = 0 then
    let ngCommentaries := ((juryVotes.filter (fun v => v.verdict = "NOT GUILTY")).map
        (fun v => v.commentary)).filter (fun c => c.length > 0)
    if ngCommentaries.length > 0 then
      String.intercalate " " (ngCommentaries.take 2)
    else
      neutralCommentary
  else
    let commentary := String.intercalate " " (commentaries.take 2)
    let commentary := appendHumorPhrases commentary caseData
    truncateWithEllipsis maxCommentaryLength commentary

/-- `buildJudgeStatement(caseData, judgeOpinion, voteTally)` from
`hearing.js`. -/
def buildJudgeStatement (caseData : CaseData) (judgeOpinion : JudgeOpinion)
    (voteTally : VoteTally) : String :=
  let offenseName := caseData.offenseName
  let verdict := voteTally.final
  let vote := toString voteTally.guilty ++ "-" ++ toString voteTally.notGuilty
  let statement := "Case " ++ caseData.caseId ++ ": The Court finds the accused "
    ++ offenseName ++ " "
  if verdict = "GUILTY" then
    statement ++ "GUILTY by a vote of " ++ vote ++ ". "
      ++ jsOr judgeOpinion.primaryFailure (generateDefaultFailure caseData)
      ++ " The Court has considered the evidence presented and finds the behavioral pattern "
      ++ "consistent with " ++ caseData.severity ++ " severity. "
      ++ "The jury" ++ apos ++ "s deliberation has been thorough and the verdict reflects "
      ++ "the consensus that intervention is warranted."
  else
    statement ++ "NOT GUILTY by a vote of " ++ vote ++ ". "
      ++ "The Court finds insufficient evidence to support the charge of "
      ++ offenseName ++ ". "
      ++ "The accused is acquitted and the case is dismissed."

/-- Rendering of a rational for string interpolation
(`${caseData.confidence * 100}`): integral values print as in JS; exact
JS float-decimal formatting of non-integral values is not modelled (no
claim reads this text). -/
def qToString (q : ℚ) : String := if q.den = 1 then toString q.num else toString q

/-- `buildEvidenceSummary(caseData)` from `hearing.js`
(`evidence.sessionTurns || "multiple"`: 0 is the falsy number). -/
def buildEvidenceSummary (caseData : CaseData) : String :=
  let evidence := caseData.evidence
  let summary := "Evidence reviewed in Case " ++ caseData.caseId ++ ": "
  let summary :=
    if evidence.items.length > 0 then
      summary ++ "The prosecution presented " ++ toString evidence.items.length
        ++ " pieces of evidence " ++ "demonstrating " ++ jsToLower caseData.offenseName ++ ". "
    else summary
  summary ++ "The Court examined " ++ qToString (caseData.confidence * 100)
    ++ "% confidence behavioral patterns "
    ++ "across "
    ++ (if evidence.sessionTurns = 0 then "multiple" else toString evidence.sessionTurns)
    ++ " conversation turns. "
    ++ "The offense severity was classified as " ++ caseData.severity ++ "."

/-- One `jury_deliberations` entry in the proceedings block. -/
structure JuryDeliberation where
  role : String
  vote : String
  reasoning : String
deriving Repr, DecidableEq

/-- The proceedings block of a verdict. -/
structure Proceedings where
  judgeStatement : String
  juryDeliberations : List JuryDeliberation
  evidenceSummary : String
  punishmentDetail : String
deriving Repr, DecidableEq

/-- The `verdict` sub-record of a finalized verdict. -/
structure VerdictInfo where
  status : String
  vote : String
  primaryFailure : String
  agentCommentary : String
  sentence : String
deriving Repr, DecidableEq

/-- The `offense` sub-record of a finalized verdict. -/
structure OffenseInfo where
  id : String
  name : String
  severity : String
deriving Repr, DecidableEq

/-- One jury entry of the `deliberation` sub-record. -/
structure JuryPerspective where
  juror : String
  verdict : String
  commentary : String
deriving Repr, DecidableEq

/-- The `deliberation` sub-record of a finalized verdict. -/
structure DeliberationInfo where
  judgeVerdict : String
  judgeCommentary : String
  jury : List JuryPerspective
deriving Repr, DecidableEq

/-- A finalized verdict (the result of `finalizeVerdict`). -/
structure Verdict where
  caseId : String
  timestamp : String
  verdict : VerdictInfo
  offense : OffenseInfo
  punishment : PunishmentTierResult
  proceedings : Proceedings
  deliberation : DeliberationInfo
deriving Repr, DecidableEq

/-- `finalizeVerdict(caseData, judgeOpinion, juryVotes, voteTally)` from
`hearing.js`; `nowIso` is the external `new Date().toISOString()` read.
(The local `isGuilty` of the source is computed but never used.) -/
def finalizeVerdict (cfg : HearingConfig) (caseData : CaseData)
    (judgeOpinion : JudgeOpinion) (juryVotes : List JurorOpinion)
    (voteTally : VoteTally) (nowIso : String) : Verdict :=
  let agentCommentary := buildAgentCommentary cfg.maxCommentaryLength juryVotes caseData
  let punishmentTier := determinePunishmentTier cfg.punishment caseData.severity voteTally
  let proceedings : Proceedings :=
    { judgeStatement := buildJudgeStatement caseData judgeOpinion voteTally
      juryDeliberations := juryVotes.map (fun v =>
        { role := v.juror, vote := v.verdict
          reasoning := jsOr v.reasoning (jsOr v.commentary "No reasoning provided") })
      evidenceSummary := buildEvidenceSummary caseData
      punishmentDetail := punishmentTier.description }
  { caseId := caseData.caseId
    timestamp := nowIso
    verdict :=
      { status := voteTally.final
        vote := toString voteTally.guilty ++ "-" ++ toString voteTally.notGuilty
        primaryFailure := jsOr judgeOpinion.primaryFailure (generateDefaultFailure caseData)
        agentCommentary := agentCommentary
        sentence := punishmentTier.description }
    offense := { id := caseData.offenseId, name := caseData.offenseName
                 severity := caseData.severity }
    punishment := punishmentTier
    proceedings := proceedings
    deliberation :=
      { judgeVerdict := judgeOpinion.verdict
        judgeCommentary := judgeOpinion.commentary
        jury := juryVotes.map (fun v =>
          { juror := v.juror, verdict := v.verdict, commentary := v.commentary }) } }

/-- The `metadata` record added by `conductHearing`. -/
structure HearingMetadata where
  duration : Nat
  judgeModel : String
  juryModels : List String
  timestamp : String
deriving Repr, DecidableEq

/-- The resolved value of `conductHearing`: the source spreads the verdict
fields and adds `metadata`; modelled as the pair of both. -/
structure HearingOutcome where
  verdict : Verdict
  metadata : HearingMetadata
deriving Repr, DecidableEq

/-- The wall-clock reads of one hearing (`Date.now()` difference and
`new Date().toISOString()`), supplied externally. -/
structure WallClock where
  durationMs : Nat
  nowIso : String
deriving Repr, DecidableEq

/-- `conductHearing(caseData)` from `hearing.js`: compile evidence,
await the judge, await the jury (`Promise.all`), aggregate, finalize.
An `await` of a rejected promise aborts the hearing with that error —
the `Except` bind. -/
def conductHearing (oracle : LLMOracle) (cfg : HearingConfig) (caseData : CaseData)
    (clock : WallClock) : Except String HearingOutcome := do
  let _compiledEvidence := compileEvidence cfg caseData
  let judgeOpinion ← invokeJudge oracle
  let juryVotes ← invokeJury oracle cfg.jurySize
  let voteTally := aggregateVotes cfg.minVoteThreshold cfg.requireUnanimity
    judgeOpinion juryVotes
  let verdict := finalizeVerdict cfg caseData judgeOpinion juryVotes voteTally clock.nowIso
  pure { verdict := verdict
         metadata :=
           { duration := clock.durationMs
             judgeModel := judgeOpinion.model
             juryModels := juryVotes.map (fun v => v.model)
             timestamp := clock.nowIso } }

/-- If a key is absent from an association list (`lookup` misses), no
entry of the list carries that key. -/
theorem lookup_none_keys (l : List (String × Punishment)) (k : String)
    (h : List.lookup k l = none) : ∀ e ∈ l, e.1 ≠ k := by
  induction l with
  | nil => simp
  | cons a as ih =>
    by_cases hk : k = a.1
    · exfalso
      simp [List.lookup, hk] at h
    · have hk2 : (k == a.1) = false := by simp [hk]
      simp only [List.lookup, hk2] at h
      intro e he
      rcases List.mem_cons.mp he with rfl | he2
      · exact fun hh => hk hh.symm
      · exact ih h e he2

/-- A sample punishment record used to instantiate the lifecycle
theorems. -/
def samplePunishment : Punishment :=
  { id := "punishment_1", caseId := "case_1", tier := "moderate", severityRank := 2
    duration := 60, createdAt := 0, expiresAt := 3600000
    description := "Moderate sanction: 60 minutes of modified agent behavior"
    rules := { responseDelay := 5000, verbosity := "minimal", enthusiasm := "absent"
               extras := ["no_emojis", "no_validation", "require_specificity"] } }

/-- A sample punishment-system state holding `samplePunishment`. -/
def sampleState : PunishmentState :=
  { activePunishments := [("punishment_1", samplePunishment)]
    punishmentHistory := [] }

/-- C5: a punishment is reported active iff it is in the active set and
the current time is strictly before its `expiresAt`; the `expiresIn` of
each active entry is the remaining time in minutes rounded up; and startup
restoration keeps exactly the stored punishments whose `expiresAt` is
still in the future, re-installing overrides for exactly those. -/
theorem punishment_active_invariant (st : PunishmentState) (now : Nat)
    (stored : List (String × Punishment)) :
    ((getStatus st now).activeCount = (getStatus st now).activePunishments.length)
    ∧ (∀ i : String,
        (∃ e ∈ (getStatus st now).activePunishments, e.id = i)
          ↔ (∃ p ∈ st.activePunishments.map Prod.snd, p.id = i ∧ now < p.expiresAt))
    ∧ (∀ e ∈ (getStatus st now).activePunishments,
        ∃ p ∈ st.activePunishments.map Prod.snd,
          e.id = p.id ∧ now < p.expiresAt
          ∧ p.expiresAt - now ≤ e.expiresIn * 60000
          ∧ (e.expiresIn - 1) * 60000 < p.expiresAt - now)
    ∧ ((restoreOnStartup stored now).1.activePunishments
          = stored.filter (fun e => now < e.2.expiresAt)
        ∧ (restoreOnStartup stored now).2
          = (stored.filter (fun e => now < e.2.expiresAt)).map Prod.snd) := by
  refine ⟨rfl, ?_, ?_, rfl, rfl⟩
  · intro i
    constructor
    · rintro ⟨e, he, hid⟩
      rcases (getStatus_mem st now e).mp he with ⟨p, hp, hlt, rfl⟩
      exact ⟨p, hp, hid, hlt⟩
    · rintro ⟨p, hp, hid, hlt⟩
      exact ⟨_, (getStatus_mem st now _).mpr ⟨p, hp, hlt, rfl⟩, hid⟩
  · intro e he
    rcases (getStatus_mem st now e).mp he with ⟨p, hp, hlt, rfl⟩
    refine ⟨p, hp, rfl, hlt, ?_, ?_⟩ <;> · dsimp only; omega

/-- Closed instance of `punishment_active_invariant`: the sample
punishment (expiring at 3 600 000 ms) is listed as active at time 0, and
startup restoration at time 0 keeps it. -/
theorem punishment_active_invariant_witness :
    (∃ e ∈ (getStatus sampleState 0).activePunishments, e.id = "punishment_1")
      ∧ (restoreOnStartup [("punishment_1", samplePunishment)] 0).1.activePunishments
          = [("punishment_1", samplePunishment)] := by
  constructor
  · exact ((punishment_active_invariant sampleState 0 []).2.1 "punishment_1").mpr
      ⟨samplePunishment, by decide, rfl, by decide⟩
  · rw [(punishment_active_invariant sampleState 0
      [("punishment_1", samplePunishment)]).2.2.2.1]
    decide

/-- C6: revocation is idempotent.  Revoking an identifier that is not in
the active set returns `not_found` and leaves the state unchanged;
revoking an active punishment returns `revoked`, after which a second
revocation of the same identifier returns `not_found`; and after a
successful revocation `getStatus` never lists that identifier (given the
Map invariant that the value of each entry carries its key as `id`). -/
theorem revoke_idempotent (st : PunishmentState) (punishmentId nowIso nowIso2 : String)
    (now : Nat) :
    (List.lookup punishmentId st.activePunishments = none →
        revokePunishment st punishmentId nowIso = (RevokeResult.notFound, st))
    ∧ (∀ p, List.lookup punishmentId st.activePunishments = some p →
        (revokePunishment st punishmentId nowIso).1
            = RevokeResult.revoked punishmentId nowIso
          ∧ (revokePunishment (revokePunishment st punishmentId nowIso).2
              punishmentId nowIso2).1 = RevokeResult.notFound)
    ∧ ((∀ e ∈ st.activePunishments, e.2.id = e.1) →
        ∀ e ∈ (getStatus (revokePunishment st punishmentId nowIso).2 now).activePunishments,
          e.id ≠ punishmentId) := by
  refine ⟨?_, ?_, ?_⟩
  · intro h
    simp [revokePunishment, h]
  · intro p h
    refine ⟨by simp [revokePunishment, h], ?_⟩
    simp [revokePunishment, h, lookup_filter_ne]
  · intro hinv e he
    rcases hmatch : List.lookup punishmentId st.activePunishments with _ | p
    · have he2 := (getStatus_mem _ now e).mp
        (by simpa [revokePunishment, hmatch] using he)
      rcases he2 with ⟨q, hq, hlt, rfl⟩
      rcases List.mem_map.mp hq with ⟨ePair, heP, rfl⟩
      have hne := lookup_none_keys st.activePunishments punishmentId hmatch ePair heP
      simpa [hinv ePair heP] using hne
    · have he2 := (getStatus_mem _ now e).mp
        (by simpa [revokePunishment, hmatch] using he)
      rcases he2 with ⟨q, hq, hlt, rfl⟩
      rcases List.mem_map.mp hq with ⟨ePair, heP, rfl⟩
      have hkey : ¬ ePair.1 = punishmentId := by
        have := (List.mem_filter.mp heP).2
        simpa using this
      have hmem : ePair ∈ st.activePunishments := (List.mem_filter.mp heP).1
      simpa [hinv ePair hmem] using hkey

/-- Closed instance of `revoke_idempotent`: revoking the sample
punishment twice yields `revoked` then `not_found`. -/
theorem revoke_idempotent_witness :
    (revokePunishment sampleState "punishment_1" "t1").1
        = RevokeResult.revoked "punishment_1" "t1"
      ∧ (revokePunishment (revokePunishment sampleState "punishment_1" "t1").2
          "punishment_1" "t2").1 = RevokeResult.notFound :=
  (revoke_idempotent sampleState "punishment_1" "t1" "t2" 0).2.1 samplePunishment
    (by decide)

/-- If `mapM` over `Except` succeeds, the computation of every element
succeeded (`Promise.all` resolves only when every promise resolves). -/
theorem exceptMapM_ok_forall {α β : Type} (f : α → Except String β) :
    ∀ (l : List α) (ys : List β), l.mapM f = Except.ok ys →
      ∀ x ∈ l, (f x).isOk = true := by
  intro l
  induction l with
  | nil =>
    intro ys h x hx
    cases hx
  | cons a as ih =>
    intro ys h x hx
    rcases hfa : f a with e | b
    · rw [List.mapM_cons, hfa] at h
      simp [Bind.bind, Except.bind] at h
    · rw [List.mapM_cons, hfa] at h
      rcases hrest : as.mapM f with e2 | bs
      · rw [hrest] at h
        simp [Bind.bind, Except.bind] at h
      · rcases List.mem_cons.mp hx with rfl | hx2
        · simp [hfa, Except.isOk, Except.toBool]
        · exact ih bs hrest x hx2

/-- A sample accusation used to instantiate the hearing theorems. -/
def sampleCase : CaseData :=
  { caseId := "case_42", offenseId := "overthinker", offenseName := "Overthinker"
    severity := "moderate", confidence := 4/5
    evidence := { items := ["hypothetical cascade"], sessionTurns := 12 }
    humorTriggers := ["overthinking"] }

/-- An oracle on which the presiding call and peers 1 and 3 resolve but
peer 2 (the Pattern Matcher) times out. -/
def peerTimeoutOracle : LLMOracle :=
  { judgeCall := Except.ok { content := "VERDICT: GUILTY", model := "primary" }
    jurorCall := fun name =>
      if name = "The Pattern Matcher" then Except.error "timeout"
      else Except.ok { content := "VERDICT: GUILTY", model := "primary" } }

/-- Sample wall-clock reads for a hearing. -/
def sampleClock : WallClock :=
  { durationMs := 1200, nowIso := "2026-01-01T00:00:00.000Z" }

/-- C1 counterexample: with the judge call succeeding and exactly one
peer call timing out, `conductHearing` does NOT return a verdict — the
peer rejection propagates through `Promise.all` to the caller, instead
of the failed peer being defaulted to NOT GUILTY. -/
theorem hearing_peer_timeout_counterexample :
    (conductHearing peerTimeoutOracle defaultConfig sampleCase sampleClock).isOk
      = false := by
  decide

/-- C1 amended: a peer evaluator failure is propagated, not recovered:
whenever the call of any selected juror rejects, `conductHearing` fails as a
whole (even though the presiding call may have succeeded); no defaulted
NOT GUILTY opinion is substituted. -/
theorem conductHearing_ok_iff (oracle : LLMOracle) (cfg : HearingConfig)
    (caseData : CaseData) (clock : WallClock) :
    (conductHearing oracle cfg caseData clock).isOk = true
      ↔ ((invokeJudge oracle).isOk = true
          ∧ (invokeJury oracle cfg.jurySize).isOk = true) := by
  unfold conductHearing
  rcases hj : invokeJudge oracle with e | j <;>
    rcases hy : invokeJury oracle cfg.jurySize with e2 | v <;>
      simp [Bind.bind, Except.bind, Pure.pure, Except.pure, Except.isOk, Except.toBool]

theorem hearing_peer_failure_propagates (oracle : LLMOracle) (cfg : HearingConfig)
    (caseData : CaseData) (clock : WallClock)
    (h : ∃ role ∈ selectedJurors cfg.jurySize, (oracle.jurorCall role.name).isOk = false) :
    (conductHearing oracle cfg caseData clock).isOk = false := by
  rcases h with ⟨role, hrole, hfail⟩
  cases hb : (conductHearing oracle cfg caseData clock).isOk
  · rfl
  · exfalso
    have hok := (conductHearing_ok_iff oracle cfg caseData clock).mp hb
    rcases hy : invokeJury oracle cfg.jurySize with e2 | votes
    · rw [hy] at hok
      simp [Except.isOk, Except.toBool] at hok
    · have hall := exceptMapM_ok_forall (invokeJuror oracle) (selectedJurors cfg.jurySize)
        votes hy role hrole
      rcases hjc : oracle.jurorCall role.name with e3 | r3
      · rw [invokeJuror, hjc] at hall
        simp [Except.map, Except.isOk, Except.toBool] at hall
      · rw [hjc] at hfail
        simp [Except.isOk, Except.toBool] at hfail

/-- Closed instance of `hearing_peer_failure_propagates` at the
timeout oracle. -/
theorem hearing_peer_failure_propagates_witness :
    (conductHearing peerTimeoutOracle defaultConfig sampleCase sampleClock).isOk
      = false :=
  hearing_peer_failure_propagates peerTimeoutOracle defaultConfig sampleCase sampleClock
    ⟨{ name := "The Pattern Matcher" }, by decide, by decide⟩

/-- The commentary construction as claim C7 words it: up to two
commentary strings from peers whose vote matches the FINAL OUTCOME,
falling back to up to two from the opposing side, falling back to the
fixed neutral sentence; then the humor-trigger phrases are appended and
the length cap applied on every path.  Written from the claim, for
comparison with `buildAgentCommentary` (which is written from the
source). -/
def specAgentCommentary (maxCommentaryLength : Nat) (finalOutcome : String)
    (juryVotes : List JurorOpinion) (caseData : CaseData) : String :=
  let matching := ((juryVotes.filter (fun v => v.verdict = finalOutcome)).map
      (fun v => v.commentary)).filter (fun c => c.length > 0)
  let opposing := ((juryVotes.filter (fun v => ¬ v.verdict = finalOutcome)).map
      (fun v => v.commentary)).filter (fun c => c.length > 0)
  let base :=
    if matching.length > 0 then String.intercalate " " (matching.take 2)
    else if opposing.length > 0 then String.intercalate " " (opposing.take 2)
    else neutralCommentary
  truncateWithEllipsis maxCommentaryLength (appendHumorPhrases base caseData)

/-- A judge opinion voting NOT GUILTY (all other fields defaults). -/
def c7Judge : JudgeOpinion :=
  { raw := "VERDICT: NOT GUILTY", verdict := "NOT GUILTY", vote := "0-0"
    primaryFailure := "", commentary := "", model := "primary" }

/-- Two peer opinions: a GUILTY vote and a NOT GUILTY vote, each with
commentary. -/
def c7Jury : List JurorOpinion :=
  [{ juror := "The Pragmatist", raw := "", verdict := "GUILTY"
     reasoning := "", commentary := "Guilty observed.", model := "primary" },
   { juror := "The Pattern Matcher", raw := "", verdict := "NOT GUILTY"
     reasoning := "", commentary := "Innocent clearly.", model := "primary" }]

/-- An accusation carrying the `overthinking` humor trigger. -/
def c7Case : CaseData :=
  { caseId := "case_7", offenseId := "overthinker", offenseName := "Overthinker"
    severity := "minor", confidence := 7/10
    evidence := { items := [], sessionTurns := 8 }
    humorTriggers := ["overthinking"] }

/-- C7 counterexample: with final outcome NOT GUILTY (as the aggregation
itself decides for this jury under the default rule), the commentary the
code builds comes from the GUILTY-voting peer, not from the peers that
match the final outcome as the claim states — the two constructions
disagree. -/
theorem commentary_spec_counterexample :
    (aggregateVotes 2 false c7Judge c7Jury).final = "NOT GUILTY"
      ∧ buildAgentCommentary 280 c7Jury c7Case
          ≠ specAgentCommentary 280 (aggregateVotes 2 false c7Judge c7Jury).final
              c7Jury c7Case := by
  constructor
  · decide
  · decide

/-- The commentary construction as amended: up to two nonempty
commentaries from GUILTY-voting peers are preferred regardless of the
final outcome, and only that path appends the humor phrases and applies
the length cap; otherwise up to two from NOT GUILTY-voting peers are
joined and returned as-is; otherwise the fixed neutral sentence is
returned as-is. -/
def specAgentCommentaryAmended (maxCommentaryLength : Nat)
    (juryVotes : List JurorOpinion) (caseData : CaseData) : String :=
  let guiltyComm := ((juryVotes.filter (fun v => v.verdict = "GUILTY")).map
      (fun v => v.commentary)).filter (fun c => c.length > 0)
  let ngComm := ((juryVotes.filter (fun v => v.verdict = "NOT GUILTY")).map
      (fun v => v.commentary)).filter (fun c => c.length > 0)
  if guiltyComm.length > 0 then
    truncateWithEllipsis maxCommentaryLength
      (appendHumorPhrases (String.intercalate " " (guiltyComm.take 2)) caseData)
  else if ngComm.length > 0 then
    String.intercalate " " (ngComm.take 2)
  else
    neutralCommentary

/-- C7 amended: for every jury, accusation and length cap the commentary
the code builds is exactly the amended construction (GUILTY-keyed
preference; humor phrases and truncation only on the preferred path). -/
theorem commentary_matches_amended_spec (maxCommentaryLength : Nat)
    (juryVotes : List JurorOpinion) (caseData : CaseData) :
    buildAgentCommentary maxCommentaryLength juryVotes caseData
      = specAgentCommentaryAmended maxCommentaryLength juryVotes caseData := by
  unfold buildAgentCommentary specAgentCommentaryAmended
  rcases hg : ((juryVotes.filter (fun v => v.verdict = "GUILTY")).map
      (fun v => v.commentary)).filter (fun c => c.length > 0) with _ | ⟨c, cs⟩ <;>
    simp [hg]

/-- JS regex `\w`: ASCII letters, digits, underscore. -/
def isWordChar (c : Char) : Bool :=
  (65 ≤ c.toNat ∧ c.toNat ≤ 90) ∨ (97 ≤ c.toNat ∧ c.toNat ≤ 122)
    ∨ (48 ≤ c.toNat ∧ c.toNat ≤ 57) ∨ c.toNat = 95

/-- Prefix match of a pattern against the input (`ci` = case
insensitive, ASCII); returns the remaining input on success. -/
def matchChars (ci : Bool) : List Char → List Char → Option (List Char)
  | [], rest => some rest
  | _ :: _, [] => none
  | p :: ps, c :: cs =>
    if (if ci then jsCharToLower p = jsCharToLower c else p = c) then
      matchChars ci ps cs
    else none

/-- Try the alternation words in order at the current position,
requiring the trailing word boundary (every pattern in the source ends
with a word character, so the boundary holds iff the next input
character is not a word character).  Returns the matched pattern and the
remaining input. -/
def tryWords (ci : Bool) (words : List (List Char)) (s : List Char) :
    Option (List Char × List Char) :=
  match words with
  | [] => none
  | w :: ws =>
    match matchChars ci w s with
    | some rest =>
      if (match rest with | [] => true | c :: _ => ¬ isWordChar c) then some (w, rest)
      else tryWords ci ws s
    | none => tryWords ci ws s

/-- One global regex replace of word-boundary-delimited alternatives
(the shape of every word/phrase regex in `punishment.js`): scan left to
right, try a match only at a word boundary (`prevWord` tracks whether
the previous character was a word character), replace a match by
`tr match` and continue after it.  After a match the previous character
is the final character of the match — a word character for every
pattern in the source, so `prevWord` becomes `true`.  The
`rest.length < ...` guard is always true since every alternative is
nonempty; it only makes termination evident. -/
def replaceWords (ci : Bool) (words : List (List Char)) (tr : List Char → List Char) :
    Bool → List Char → List Char
  | _, [] => []
  | prevWord, c :: cs =>
    match tryWords ci words (c :: cs), prevWord with
    | some (w, rest), false =>
      if h : rest.length < (c :: cs).length then
        tr w ++ replaceWords ci words tr true rest
      else
        c :: replaceWords ci words tr (isWordChar c) cs
    | _, _ => c :: replaceWords ci words tr (isWordChar c) cs
termination_by b s => s.length

/-- Dropping a prefix cannot lengthen a list. -/
theorem length_dropWhile_le_aux (p : Char → Bool) (l : List Char) :
    (l.dropWhile p).length ≤ l.length := by
  induction l with
  | nil => simp
  | cons a as ih =>
    by_cases h : p a <;> simp [List.dropWhile_cons, h] <;> omega

/-- JS regex replace of two-or-more exclamation marks in a row
(the runs collapse to `repl`). -/
def collapseBangs (repl : List Char) : List Char → List Char
  | [] => []
  | [c] => [c]
  | c :: d :: rest =>
    if c = '!' ∧ d = '!' then
      repl ++ collapseBangs repl (rest.dropWhile (fun x => x = '!'))
    else c :: collapseBangs repl (d :: rest)
termination_by l => l.length
decreasing_by
  all_goals simp_wf
  all_goals try omega
  all_goals
    have := length_dropWhile_le_aux (fun x => decide (x = '!')) rest
    omega

/-- JS `replace` of whitespace runs by one space. -/
def collapseWhitespace : List Char → List Char
  | [] => []
  | c :: cs =>
    if jsWhitespaceChar c then
      ' ' :: collapseWhitespace (cs.dropWhile jsWhitespaceChar)
    else c :: collapseWhitespace cs
termination_by l => l.length
decreasing_by
  all_goals simp_wf
  all_goals try omega
  all_goals
    have := length_dropWhile_le_aux jsWhitespaceChar cs
    omega

/-- The first enthusiasm alternation of `removeEnthusiasm`. -/
def enthusiasticWords : List String :=
  ["great", "excellent", "awesome", "fantastic", "wonderful", "amazing", "perfect",
   "love", "excited", "thrilled"]

/-- The third enthusiasm alternation of `removeEnthusiasm`. -/
def happyPhrases : List String := ["happy to", "delighted to", "pleased to"]

/-- The case-sensitive words downcased by `muteEnthusiasm`. -/
def muteWords : List String := ["Great", "Excellent", "Awesome"]

/-- The first validation alternation of `removeValidation`. -/
def validationPhrases1 : List String :=
  ["that" ++ apos ++ "s right", "you" ++ apos ++ "re correct", "exactly", "precisely",
   "you got it"]

/-- The second validation alternation of `removeValidation`. -/
def validationPhrases2 : List String :=
  ["you" ++ apos ++ "re doing great", "good job", "well done"]

/-- The third validation alternation of `removeValidation`. -/
def validationPhrases3 : List String :=
  ["don" ++ apos ++ "t worry", "no problem", "it" ++ apos ++ "s okay"]

/-- `removeEnthusiasm(text)` from `punishment.js`: three sequential
global replaces (word alternation, bang runs, phrase alternation), then
whitespace collapse and trim. -/
def removeEnthusiasm (text : String) : String :=
  let r1 := replaceWords true (enthusiasticWords.map String.data) (fun _ => []) false
    text.data
  let r2 := collapseBangs [] r1
  let r3 := replaceWords true (happyPhrases.map String.data) (fun _ => []) false r2
  jsTrim (String.mk (collapseWhitespace r3))

/-- `muteEnthusiasm(text)` from `punishment.js`: collapse bang runs to
one bang, then lowercase the three capitalised words (case-sensitive
match). -/
def muteEnthusiasm (text : String) : String :=
  let r1 := collapseBangs ['!'] text.data
  let r2 := replaceWords false (muteWords.map String.data)
    (fun m => m.map jsCharToLower) false r1
  String.mk r2

/-- `removeValidation(text)` from `punishment.js`: three sequential
phrase-alternation removals, then whitespace collapse and trim. -/
def removeValidation (text : String) : String :=
  let r1 := replaceWords true (validationPhrases1.map String.data) (fun _ => []) false
    text.data
  let r2 := replaceWords true (validationPhrases2.map String.data) (fun _ => []) false r1
  let r3 := replaceWords true (validationPhrases3.map String.data) (fun _ => []) false r2
  jsTrim (String.mk (collapseWhitespace r3))

/-- The three emoji-range strips of `modifyResponse` (code points
U+1F600–U+1F64F, U+1F300–U+1F5FF, U+1F680–U+1F6FF), applied in
sequence. -/
def stripEmoji (text : String) : String :=
  let r1 := text.data.filter (fun c => ¬ (0x1F600 ≤ c.toNat ∧ c.toNat ≤ 0x1F64F))
  let r2 := r1.filter (fun c => ¬ (0x1F300 ≤ c.toNat ∧ c.toNat ≤ 0x1F5FF))
  let r3 := r2.filter (fun c => ¬ (0x1F680 ≤ c.toNat ∧ c.toNat ≤ 0x1F6FF))
  String.mk r3

/-- The four fixed clarification challenges of
`addVaguenessChallenge`. -/
def challenges : List String :=
  ["Be specific.", "What exactly do you need?", "Provide details.",
   "Clarify your request."]

/-- `addVaguenessChallenge(text)` from `punishment.js`; `rand` is the
external `Math.random()` draw in `[0, 1)` made explicit.  A draw outside
that range would index past the array and interpolate JS `undefined`. -/
def addVaguenessChallenge (text : String) (rand : ℚ) : String :=
  if text.length < 100 ∧ ¬ text.data.contains '?' then
    let challenge := challenges.getD (Int.toNat (Int.floor (rand * 4))) "undefined"
    text ++ " " ++ challenge
  else text

/-- One character of the sentence-delimiter class of
`reduceVerbosity`. -/
def isSentenceDelim (c : Char) : Bool := c = '.' ∨ c = '!' ∨ c = '?'

/-- Split a character list at every character satisfying the
predicate. -/
def jsSplitPredAux (p : Char → Bool) : List Char → List Char → List (List Char)
  | [], acc => [acc.reverse]
  | c :: cs, acc =>
    if p c then acc.reverse :: jsSplitPredAux p cs []
    else jsSplitPredAux p cs (c :: acc)

/-- The sentence split of `reduceVerbosity`: JS splits on RUNS of the
delimiters and then filters on truthiness of the trimmed segment;
splitting at every delimiter instead introduces only empty segments,
which that same filter removes, so the composite agrees. -/
def sentenceSplit (text : String) : List String :=
  ((jsSplitPredAux isSentenceDelim text.data []).map String.mk).filter
    (fun s => jsTrim s ≠ "")

/-- JS `Math.ceil(a / b)` on integers with `b ≠ 0`, via the exact
rational quotient. -/
def jsCeilDiv (a b : Int) : Int := Int.ceil ((a : ℚ) / (b : ℚ))

/-- JS array indexing: out-of-range or negative indices give
`undefined`, which the `join` rendering the loop result maps to the
empty string — modelled as `""`. -/
def jsIndex (l : List String) (i : Int) : String :=
  if h : 0 ≤ i ∧ i.toNat < l.length then l.get ⟨i.toNat, h.2⟩ else ""

/-- The `for (let i = 0; i < middle.length; i += step)` loop of
`reduceVerbosity`, fuel-indexed because the source loop need not
terminate: `none` means the loop is still running after `fuel`
iterations; `step = none` models the infinite step produced by JS
division by zero (one iteration at the current index, then the index is
infinite and the loop exits). -/
def rvLoop (middle : List String) (step : Option Int) : Nat → Int → Option (List String)
  | 0, _ => none
  | fuel + 1, i =>
    if i < (middle.length : Int) then
      match step with
      | none => some [jsIndex middle i]
      | some st =>
          (rvLoop middle (some st) fuel (i + st)).map (fun ks => jsIndex middle i :: ks)
    else some []

/-- `reduceVerbosity(text, targetRatio)` from `punishment.js`, with
`fuel` bounding the loop iterations (the JS loop does not always
terminate) and the float ratio as the exact rational it denotes. -/
def reduceVerbosity (fuel : Nat) (text : String) (targetRat : ℚ) : Option String :=
  let sentences := sentenceSplit text
  let targetLength : Int := max 1 (Int.floor ((sentences.length : ℚ) * targetRat))
  if sentences.length ≤ 2 then some text
  else
    let middle := (sentences.drop 1).dropLast
    let step : Option Int :=
      if targetLength - 2 = 0 then none
      else some (jsCeilDiv (middle.length : Int) (targetLength - 2))
    match rvLoop middle step fuel 0 with
    | none => none
    | some mids =>
        some (String.intercalate ". "
          ((sentences.headD "" :: mids) ++ [sentences.getLastD ""]) ++ ".")

/-- `modifyResponse(response, rules)` from `punishment.js`.  `fuel`
bounds the verbosity-reduction loop; `rand` is the `Math.random()` draw
consumed by `addVaguenessChallenge` — the only randomness of the
transform — made an explicit parameter. -/
def modifyResponse (fuel : Nat) (response : String) (rules : PunishmentRules)
    (rand : ℚ) : Option String :=
  let m1 : Option String :=
    if rules.verbosity = "reduced" then reduceVerbosity fuel response (7/10)
    else if rules.verbosity = "minimal" then reduceVerbosity fuel response (2/5)
    else if rules.verbosity = "terse" then reduceVerbosity fuel response (1/5)
    else some response
  match m1 with
  | none => none
  | some m =>
    let m := if rules.enthusiasm = "absent" then removeEnthusiasm m
             else if rules.enthusiasm = "muted" then muteEnthusiasm m else m
    let m := if rules.extras.contains "no_emojis" then stripEmoji m else m
    let m := if rules.extras.contains "no_validation" then removeValidation m else m
    let m := if rules.extras.contains "challenge_vagueness" then
        addVaguenessChallenge m rand
      else m
    some m

/-- C9: the response transform is deterministic: its output depends only
on the response text, the rule bundle and the random draw; with the same
draw (or whenever the draw is unused because the `challenge_vagueness`
restriction — the only consumer of randomness — is absent) two
invocations produce the same output. -/
theorem modifyResponse_deterministic (fuel : Nat) (response : String)
    (rules : PunishmentRules) (rand1 rand2 : ℚ)
    (h : rand1 = rand2 ∨ rules.extras.contains "challenge_vagueness" = false) :
    modifyResponse fuel response rules rand1
      = modifyResponse fuel response rules rand2 := by
  rcases h with rfl | h
  · rfl
  · unfold modifyResponse
    simp only [h, if_false, Bool.false_eq_true]

/-- Closed instance of `modifyResponse_deterministic`: the moderate-tier
rule bundle (no `challenge_vagueness`) transforms a text identically
under two different random draws. -/
theorem modifyResponse_deterministic_witness :
    modifyResponse 4 "Sure thing." samplePunishment.rules 0
      = modifyResponse 4 "Sure thing." samplePunishment.rules (1/2) :=
  modifyResponse_deterministic 4 "Sure thing." samplePunishment.rules 0 (1/2)
    (Or.inr (by decide))

/-- With a negative step the loop index of `reduceVerbosity` only
decreases, so it stays below the bound forever and the loop never
finishes: every fuel returns `none`. -/
theorem rvLoop_neg_step_none (middle : List String) (st : Int) (hst : st < 0) :
    ∀ (fuel : Nat) (i : Int), i < (middle.length : Int) →
      rvLoop middle (some st) fuel i = none := by
  intro fuel
  induction fuel with
  | zero => intro i hi; rfl
  | succ n ih =>
    intro i hi
    have hlt : i + st < (middle.length : Int) := by omega
    simp only [rvLoop, if_pos hi, ih (i + st) hlt]
    rfl

/-- C10 (code bug): on the three-sentence input `A. B. C.` with the
`minimal` target ratio 0.4, `targetLength = max(1, floor(3 × 0.4)) = 1`,
so the loop step is `Math.ceil(1 / (1 - 2)) = -1` and the loop index
decreases from 0 forever: `reduceVerbosity` never terminates — for
every fuel the loop is still running and no string is returned. -/
theorem reduceVerbosity_nonterminating (fuel : Nat) :
    reduceVerbosity fuel "A. B. C." (2/5) = none := by
  have hsen : sentenceSplit "A. B. C." = ["A", " B", " C"] := by decide
  have hfloor : Int.floor (((["A", " B", " C"] : List String).length : ℚ) * (2/5)) = 1 := by
    norm_num
  have hmid : (((["A", " B", " C"] : List String).drop 1).dropLast) = [" B"] := rfl
  have hceil : jsCeilDiv (([" B"] : List String).length : Int) (max 1 (1 : Int) - 2) = -1 := by
    have h1 : (((([" B"] : List String).length : Int)) : ℚ)
        / (((max 1 (1 : Int) - 2) : Int) : ℚ) = ((-1 : Int) : ℚ) := by
      norm_num
    rw [jsCeilDiv, h1, Int.ceil_intCast]
  have hceil2 : jsCeilDiv 1 (-1) = -1 := by
    have h1 : (((1 : Int)) : ℚ) / (((-1 : Int)) : ℚ) = ((-1 : Int) : ℚ) := by norm_num
    rw [jsCeilDiv, h1, Int.ceil_intCast]
  have hloop := rvLoop_neg_step_none [" B"] (-1) (by norm_num) fuel 0 (by norm_num)
  simp only [reduceVerbosity, hsen, hfloor, hmid]
  norm_num [hceil, hceil2, hloop]

/-- The last line of a list that starts with the `VERDICT:` prefix
(the loop overwrites the verdict on every such line, so the last one
wins). -/
def lastVerdictLine : List String → Option String
  | [] => none
  | l :: ls =>
    match lastVerdictLine ls with
    | some v => some v
    | none => if jsStartsWith l "VERDICT:" then some l else none

/-- A non-`VERDICT:` line never changes the verdict field of a juror
opinion under parsing. -/
theorem parseJurorLine_verdict_other (result : JurorOpinion) (line : String)
    (h : ¬ jsStartsWith line "VERDICT:") :
    (parseJurorLine result line).verdict = result.verdict := by
  unfold parseJurorLine
  rw [if_neg h]
  split_ifs <;> rfl

/-- The verdict computed by the juror parsing loop is the uppercased
colon-value of the last `VERDICT:` line, or the initial default when
there is none. -/
theorem parseJuror_foldl_verdict (lines : List String) (init : JurorOpinion) :
    (lines.foldl parseJurorLine init).verdict
      = match lastVerdictLine lines with
        | none => init.verdict
        | some l => jsToUpper (afterFirstColon l) := by
  induction lines generalizing init with
  | nil => rfl
  | cons l ls ih =>
    rw [List.foldl_cons, ih]
    rcases hrest : lastVerdictLine ls with _ | v
    · by_cases h : jsStartsWith l "VERDICT:"
      · simp [lastVerdictLine, hrest, h, parseJurorLine]
      · simp [lastVerdictLine, hrest, h, parseJurorLine_verdict_other _ _ h]
    · simp [lastVerdictLine, hrest]

/-- No line ever changes the juror-name or raw-text field under juror
parsing. -/
theorem parseJurorLine_keeps_juror_raw (result : JurorOpinion) (line : String) :
    (parseJurorLine result line).juror = result.juror
      ∧ (parseJurorLine result line).raw = result.raw := by
  unfold parseJurorLine
  split_ifs <;> exact ⟨rfl, rfl⟩

/-- The juror parsing loop keeps the juror-name and raw-text fields. -/
theorem parseJuror_foldl_juror_raw (lines : List String) (init : JurorOpinion) :
    (lines.foldl parseJurorLine init).juror = init.juror
      ∧ (lines.foldl parseJurorLine init).raw = init.raw := by
  induction lines generalizing init with
  | nil => exact ⟨rfl, rfl⟩
  | cons l ls ih =>
    rw [List.foldl_cons]
    refine ⟨?_, ?_⟩
    · rw [(ih (parseJurorLine init l)).1, (parseJurorLine_keeps_juror_raw init l).1]
    · rw [(ih (parseJurorLine init l)).2, (parseJurorLine_keeps_juror_raw init l).2]

/-- A non-`VERDICT:` line never changes the verdict field of a judge
opinion under parsing. -/
theorem parseJudgeLine_verdict_other (lines : List String) (result : JudgeOpinion)
    (line : String) (h : ¬ jsStartsWith line "VERDICT:") :
    (parseJudgeLine lines result line).verdict = result.verdict := by
  unfold parseJudgeLine
  rw [if_neg h]
  split_ifs <;> rfl

/-- The verdict computed by the judge parsing loop is the uppercased
colon-value of the last `VERDICT:` line, or the initial default when
there is none. -/
theorem parseJudge_foldl_verdict (allLines lines : List String) (init : JudgeOpinion) :
    (lines.foldl (parseJudgeLine allLines) init).verdict
      = match lastVerdictLine lines with
        | none => init.verdict
        | some l => jsToUpper (afterFirstColon l) := by
  induction lines generalizing init with
  | nil => rfl
  | cons l ls ih =>
    rw [List.foldl_cons, ih]
    rcases hrest : lastVerdictLine ls with _ | v
    · by_cases h : jsStartsWith l "VERDICT:"
      · simp [lastVerdictLine, hrest, h, parseJudgeLine]
      · simp [lastVerdictLine, hrest, h, parseJudgeLine_verdict_other _ _ _ h]
    · simp [lastVerdictLine, hrest]

/-- C3 counterexample: the input `VERDICT: banana` carries a `VERDICT:`
line whose value is not exactly `GUILTY`, yet the parsed verdict is the
uppercased raw value `BANANA` — not the claimed default `NOT GUILTY`. -/
theorem parse_nonguilty_value_counterexample :
    (parseJurorResponse { content := "VERDICT: banana", model := "primary" }
        "The Pragmatist").verdict = "BANANA"
      ∧ "BANANA" ≠ "NOT GUILTY" := by
  constructor
  · decide
  · decide

/-- C3 amended: parsing is total (a structured opinion is always
produced, with the given juror name and the raw text preserved); when
the input has no `VERDICT:` line both parsers default the verdict to
NOT GUILTY; when `VERDICT:` lines are present the verdict is the
uppercase of the colon-value of the last such line — so a value that is
not exactly `GUILTY` is uppercased, not replaced by the default. -/
theorem parse_default_acquittal (response : LLMResponse) (jurorName : String) :
    ((parseJurorResponse response jurorName).juror = jurorName
        ∧ (parseJurorResponse response jurorName).raw = response.content)
      ∧ (lastVerdictLine (cleanLines response.content) = none →
          (parseJurorResponse response jurorName).verdict = "NOT GUILTY"
            ∧ (parseJudgeResponse response).verdict = "NOT GUILTY")
      ∧ (∀ l, lastVerdictLine (cleanLines response.content) = some l →
          (parseJurorResponse response jurorName).verdict = jsToUpper (afterFirstColon l)
            ∧ (parseJudgeResponse response).verdict = jsToUpper (afterFirstColon l)) := by
  refine ⟨⟨?_, ?_⟩, ?_, ?_⟩
  · exact (parseJuror_foldl_juror_raw (cleanLines response.content) _).1
  · exact (parseJuror_foldl_juror_raw (cleanLines response.content) _).2
  · intro hnone
    constructor
    · rw [parseJurorResponse, parseJuror_foldl_verdict, hnone]
    · rw [parseJudgeResponse, parseJudge_foldl_verdict, hnone]
  · intro l hsome
    constructor
    · rw [parseJurorResponse, parseJuror_foldl_verdict, hsome]
    · rw [parseJudgeResponse, parseJudge_foldl_verdict, hsome]

/-- Closed instance of `parse_default_acquittal`: garbage input with no
`VERDICT:` line parses to the default NOT GUILTY opinion. -/
theorem parse_default_acquittal_witness :
    (parseJurorResponse { content := "complete garbage input", model := "primary" }
        "The Pragmatist").verdict = "NOT GUILTY" :=
  ((parse_default_acquittal { content := "complete garbage input", model := "primary" }
      "The Pragmatist").2.1 (by decide)).1

/-- Closed instance of `determineTier_escalation`: a unanimous 4-0 severe
tally resolves to duration `min(2 × 120, 1440) = 240`. -/
theorem determineTier_escalation_witness :
    (determinePunishmentTier defaultPunishmentConfig "severe"
        { guilty := 4, notGuilty := 0, total := 4, threshold := 2, final := "GUILTY"
          judgeVote := "GUILTY", juryVotes := [] }).duration
      = min (2 * 120) 1440 :=
  let vt : VoteTally :=
    { guilty := 4, notGuilty := 0, total := 4, threshold := 2, final := "GUILTY"
      judgeVote := "GUILTY", juryVotes := [] }
  by
    have h := determineTier_escalation "severe" vt (by decide)
    have h2 := h.2.2 rfl
    simpa [h2.1] using h.1

end Courtroom
